import Mathlib

/-!
Verification of the spreadsheet extraction engine in `process_pix.py`.

The Python module reads loosely structured spreadsheets and produces payment
records.  This file gives a shallow embedding of the engine: a sheet is a list
of rows, a row a list of typed cells, and each Python function is translated
into a Lean function of the same name.  Python floats are modelled as exact
rationals given by an integer numerator and a positive natural denominator
(every finite binary float is such a value); `str.strip`, `str.upper` and
`str.isdigit` are modelled for ASCII text by explicit structural functions.
-/

/-- Characters stripped by Python `str.strip()` (ASCII fragment):
space and the control characters TAB, LF, VT, FF, CR (codes 9-13, 32). -/
def pyIsSpace (c : Char) : Bool :=
  c.toNat == 32 || (9 ≤ c.toNat && c.toNat ≤ 13)

/-- ASCII decimal digit test, modelling Python `str.isdigit` per character
(ASCII fragment). -/
def pyIsDigit (c : Char) : Bool :=
  48 ≤ c.toNat && c.toNat ≤ 57

/-- Upper-case one character, modelling Python `str.upper` on ASCII text. -/
def pyUpperChar (c : Char) : Char :=
  if 97 ≤ c.toNat && c.toNat ≤ 122 then Char.ofNat (c.toNat - 32) else c

/-- Drop the longest whitespace run at the head of a character list. -/
def dropSpaces : List Char → List Char
  | [] => []
  | c :: cs => if pyIsSpace c then dropSpaces cs else c :: cs

/-- Python `str.strip()`: remove leading and trailing whitespace. -/
def pyStrip (s : String) : String :=
  String.mk ((dropSpaces ((dropSpaces s.data.reverse).reverse)))

/-- Python `str.upper()` on ASCII text. -/
def pyUpper (s : String) : String :=
  String.mk (s.data.map pyUpperChar)

/-- Python `str.isdigit()`: non-empty and every character a decimal digit
(ASCII fragment). -/
def strIsdigit (s : String) : Bool :=
  !s.data.isEmpty && s.data.all pyIsDigit

/-- `listStarts pat l` is true when `l` begins with `pat`
(Python `str.startswith`). -/
def listStarts : List Char → List Char → Bool
  | [], _ => true
  | _ :: _, [] => false
  | a :: as, b :: bs => a == b && listStarts as bs

/-- `listInfixB pat l` is true when `pat` occurs contiguously inside `l`
(Python `in` on strings). -/
def listInfixB (pat : List Char) : List Char → Bool
  | [] => listStarts pat []
  | c :: cs => listStarts pat (c :: cs) || listInfixB pat cs

/-- Number of decimal digits of `n`, with explicit fuel (second argument);
`countDigits` supplies sufficient fuel. -/
def countDigitsAux : Nat → Nat → Nat
  | _, 0 => 1
  | n, fuel + 1 => if n < 10 then 1 else 1 + countDigitsAux (n / 10) fuel

/-- Number of decimal digits of `n` (`countDigits 0 = 1`). -/
def countDigits (n : Nat) : Nat := countDigitsAux n n

/-- Decimal digit characters of `n`, most significant first, with fuel. -/
def natReprAux : Nat → Nat → List Char
  | _, 0 => []
  | n, fuel + 1 =>
    if n < 10 then [Char.ofNat (48 + n)]
    else natReprAux (n / 10) fuel ++ [Char.ofNat (48 + n % 10)]

/-- Decimal rendering of a natural number, modelling Python `str(n)`. -/
def natRepr (n : Nat) : String := String.mk (natReprAux n (countDigits n))

/-- Decimal rendering of an integer, modelling Python `str(n)`. -/
def intRepr (n : Int) : String :=
  if n < 0 then String.mk ('-' :: natReprAux n.natAbs (countDigits n.natAbs))
  else natRepr n.natAbs

/-- `round(a / b)` for naturals, rounding halves up. -/
def divRound (a b : Nat) : Nat := (2 * a + b) / (2 * b)

/-- Least `k ≥ 1` with `n * 10 ^ k ≥ d` (for `0 < n < d`), with fuel. -/
def smallExpAux : Nat → Nat → Nat → Nat
  | _, _, 0 => 1
  | n, d, fuel + 1 => if d ≤ n * 10 then 1 else 1 + smallExpAux (n * 10) d fuel

/-- Least `k ≥ 1` with `n * 10 ^ k ≥ d`, i.e. `-⌊log10 (n/d)⌋` for `n/d < 1`. -/
def smallExp (n d : Nat) : Nat := smallExpAux n d (countDigits d)

/-- Remove trailing `'0'` characters. -/
def dropTrailingZeros (cs : List Char) : List Char :=
  (cs.reverse.dropWhile fun c => c.toNat == 48).reverse

/-- Render the exact rational `num / den` (`den ≠ 0`) with 15 significant
digits, modelling the Python format `f"{value:.15g}"` applied to a finite
float whose exact value is `num / den`.  Fixed notation is used for decimal
exponents in `[-4, 15)` and scientific notation otherwise, trailing zeros of
the fractional part being dropped, as `%g` specifies.  (Rounding of a value
exactly half way between two 15-digit renderings rounds up where IEEE
formatting rounds to even; no claim below depends on such a tie.) -/
def formatG15 (num : Int) (den : Nat) : String :=
  let n := num.natAbs
  let d := den
  if n = 0 then "0"
  else
    let e : Int := if d ≤ n then (countDigits (n / d) : Int) - 1 else -(smallExp n d : Int)
    let m := if e ≤ 14 then divRound (n * 10 ^ (14 - e).toNat) d
             else divRound n (d * 10 ^ (e - 14).toNat)
    let m2 := if m = 10 ^ 15 then 10 ^ 14 else m
    let e2 := if m = 10 ^ 15 then e + 1 else e
    let ds := natReprAux m2 (countDigits m2)
    let sign : List Char := if num < 0 then ['-'] else []
    if -4 ≤ e2 ∧ e2 < 15 then
      if 0 ≤ e2 then
        let ip := ds.take (e2.toNat + 1)
        let fp := dropTrailingZeros (ds.drop (e2.toNat + 1))
        String.mk (sign ++ ip ++ (if fp.isEmpty then [] else '.' :: fp))
      else
        String.mk (sign ++ ('0' :: '.' :: List.replicate ((-e2).toNat - 1) '0')
          ++ dropTrailingZeros ds)
    else
      let fp := dropTrailingZeros (ds.drop 1)
      let mant := ds.take 1 ++ (if fp.isEmpty then [] else '.' :: fp)
      let eabs := (if e2 < 0 then -e2 else e2).toNat
      let echars := natReprAux eabs (countDigits eabs)
      let echars2 := if eabs < 10 then '0' :: echars else echars
      String.mk (sign ++ mant ++ ['e', if e2 < 0 then '-' else '+'] ++ echars2)

/-- One raw spreadsheet cell, the closed classification of the dynamic values
`clean_value` dispatches on:
`absent` is Python `None` (also the padding the reader inserts past a ragged
row's end, which pandas represents as a missing value);
`nan` a float NaN; `num num den` a finite float of exact value `num / den`
with `den ≠ 0`; `intg` a Python/NumPy integer; `txt` a string; `namarker` any
other pandas missing-value marker (`NaT`, `NA`); `obj s` any other object
whose `str()` rendering is `s`. -/
inductive Cell where
  | absent
  | nan
  | num (num : Int) (den : Nat)
  | intg (n : Int)
  | txt (s : String)
  | namarker
  | obj (s : String)
deriving DecidableEq, Repr

/-- A value in an output record: Python `int` or `str`. -/
inductive Value where
  | i (n : Int)
  | s (s : String)
deriving DecidableEq, Repr

/-- `clean_value` (process_pix.py, lines 25-40): normalize an arbitrary cell
to text.  `None` and missing markers give `""`; a NaN float gives `""`; a
float of integer value gives that integer's decimal text (`int()` is exact
there); any other finite float is formatted with `%.15g` and stripped;
integers give decimal text; strings are stripped. -/
def clean_value : Cell → String
  | Cell.absent => ""
  | Cell.nan => ""
  | Cell.num num den =>
    if num % (den : Int) = 0 then intRepr (num / (den : Int))
    else pyStrip (formatG15 num den)
  | Cell.intg n => intRepr n
  | Cell.txt s => pyStrip s
  | Cell.namarker => ""
  | Cell.obj s => pyStrip s

/-- Value of an ASCII digit string, modelling Python `int` on it. -/
def pyDigitsToNat (cs : List Char) : Nat :=
  cs.foldl (fun a c => 10 * a + (c.toNat - 48)) 0

/-- `numeric_or_string` (lines 43-52): keep `""`; turn a string whose
characters are all decimal digits into the integer it denotes (the guarded
`int(digits)` never fails on ASCII digit strings); return any other string
unchanged. -/
def numeric_or_string (value : String) : Value :=
  if value = "" then Value.s ""
  else if !(value.data.filter pyIsDigit).isEmpty ∧
      (value.data.filter pyIsDigit).length = value.data.length then
    Value.i (pyDigitsToNat (value.data.filter pyIsDigit))
  else Value.s value

/-- Read the cell of `row` at column `c`; past the row's effective width the
reader's padding (a missing value, cleaning to `""`) is returned, like
pandas `Series.get` returning `None` past the frame's width. -/
def getCell (row : List Cell) (c : Nat) : Cell := row.getD c Cell.absent

/-- The test `isinstance(cell, str) and "CPF" in cell.upper()`. -/
def cellHasCPF : Cell → Bool
  | Cell.txt s => listInfixB "CPF".data (pyUpper s).data
  | _ => false

/-- A row contains a text cell mentioning `"CPF"`. -/
def rowHasCPF (row : List Cell) : Bool := row.any cellHasCPF

/-- Helper for `find_header_row`: scan rows, `k` the index of the first. -/
def find_header_row_aux : Nat → List (List Cell) → Option Nat
  | _, [] => Option.none
  | k, row :: rest =>
    if rowHasCPF row then some k else find_header_row_aux (k + 1) rest

/-- `find_header_row` (lines 55-60): index of the first row containing a text
cell whose upper-cased content includes `"CPF"`. -/
def find_header_row (df : List (List Cell)) : Option Nat :=
  find_header_row_aux 0 df

/-- `pd.isna` on the values a cell can hold: `None`, float NaN and the other
missing markers are NA; numbers, strings (even `""`) and objects are not. -/
def cellIsNA : Cell → Bool
  | Cell.absent => true
  | Cell.nan => true
  | Cell.namarker => true
  | _ => false

/-- A cell holding a string with non-whitespace content, the test
`isinstance(val, str) and val.strip()`. -/
def hasTextValue : Cell → Bool
  | Cell.txt s => !(pyStrip s == "")
  | _ => false

/-- Some row of the data region has a non-blank text value in column `col`. -/
def columnHasText (data : List (List Cell)) (col : Nat) : Bool :=
  data.any fun row => hasTextValue (getCell row col)

/-- Pass 1 of `find_name_column` (lines 73-81): among the columns left of the
CPF column whose header cell is NA (the list `blank_header_cols`; the check
`col in header_row.index` always holds for these columns and is dropped),
the first containing a non-blank text value in the data region. -/
def find_name_pass1 (data : List (List Cell)) (header_row : List Cell)
    (cpf_idx : Nat) : Option Nat :=
  ((List.range cpf_idx).filter fun col => cellIsNA (getCell header_row col)).find?
    (columnHasText data)

/-- Pass 2 of `find_name_column` (lines 83-86): the first column left of the
CPF column containing a non-blank text value in the data region. -/
def find_name_pass2 (data : List (List Cell)) (cpf_idx : Nat) : Option Nat :=
  (List.range cpf_idx).find? (columnHasText data)

/-- `find_name_column` (lines 63-87).  The Python guard `cpf_idx <= 0` is
`cpf_idx = 0` for a natural column index. -/
def find_name_column (df : List (List Cell)) (header_idx : Nat) (cpf_idx : Nat)
    (header_row : List Cell) : Option Nat :=
  if cpf_idx = 0 then Option.none
  else
    let data := df.drop (header_idx + 1)
    match find_name_pass1 data header_row cpf_idx with
    | some col => some col
    | Option.none => find_name_pass2 data cpf_idx

/-- The entry the header-label dictionary (lines 96-99) holds for a cell:
its stripped, upper-cased text when the cell is a string. -/
def headerLabel : Cell → Option String
  | Cell.txt s => some (pyUpper (pyStrip s))
  | _ => none

/-- `next((idx for idx, label in header_labels.items() if label == target),
None)`: the first column (dictionaries iterate in insertion order, here
ascending column order) whose header label equals `target`. -/
def findLabelIdx (header_row : List Cell) (target : String) : Option Nat :=
  (List.range header_row.length).find? fun i =>
    headerLabel (getCell header_row i) == some target

/-- The per-sheet column resolution produced by lines 96-119: name, CPF,
bank-code, branch and account columns, and the optional PIX key columns. -/
structure SheetParams where
  name_idx : Nat
  cpf_idx : Nat
  banco_idx : Nat
  agencia_idx : Nat
  conta_idx : Nat
  chave_tipo_idx : Option Nat
  chave_val_idx : Option Nat
deriving DecidableEq, Repr

/-- Lines 91-119 of `extract_rows_from_sheet`: locate the header row and
resolve all column indices.  The sheet is rejected (`none`) when the header,
the CPF, BANCO or AGENCIA label, or the name column cannot be resolved; the
account column defaults to the branch column plus one. -/
def resolve_sheet (df : List (List Cell)) : Option (Nat × SheetParams) :=
  match find_header_row df with
  | Option.none => Option.none
  | some header_idx =>
    let header_row := df.getD header_idx []
    match findLabelIdx header_row "CPF" with
    | Option.none => Option.none
    | some cpf_idx =>
      match findLabelIdx header_row "BANCO" with
      | Option.none => Option.none
      | some banco_idx =>
        match findLabelIdx header_row "AGENCIA" with
        | Option.none => Option.none
        | some agencia_idx =>
          let conta_idx := (findLabelIdx header_row "CONTA").getD (agencia_idx + 1)
          let chave_tipo_idx := findLabelIdx header_row "CHAVE PIX"
          let chave_val_idx := findLabelIdx header_row "PIX"
          match find_name_column df header_idx cpf_idx header_row with
          | Option.none => Option.none
          | some name_idx =>
            some (header_idx,
              { name_idx := name_idx, cpf_idx := cpf_idx, banco_idx := banco_idx,
                agencia_idx := agencia_idx, conta_idx := conta_idx,
                chave_tipo_idx := chave_tipo_idx, chave_val_idx := chave_val_idx })

/-- One output record, the eight fields built at lines 138-147. -/
structure Record where
  nome : String
  cpf : String
  cod_banco : Value
  banco : String
  agencia : String
  conta : String
  tipo_chave_pix : String
  chave_pix : Value
deriving DecidableEq, Repr

/-- The local `name` of the row loop: the cleaned name cell. -/
def nameField (p : SheetParams) (row : List Cell) : String :=
  clean_value (getCell row p.name_idx)

/-- The local `cpf`. -/
def cpfField (p : SheetParams) (row : List Cell) : String :=
  clean_value (getCell row p.cpf_idx)

/-- The local `banco_codigo`: the cleaned cell of the column labelled
`BANCO`. -/
def bancoCodigoField (p : SheetParams) (row : List Cell) : String :=
  clean_value (getCell row p.banco_idx)

/-- The local `banco_nome`: the cleaned cell one column right of the column
labelled `BANCO` (the guard `if banco_idx is not None` is vacuous, the sheet
having been rejected already when it fails). -/
def bancoNomeField (p : SheetParams) (row : List Cell) : String :=
  clean_value (getCell row (p.banco_idx + 1))

/-- The local `agencia`. -/
def agenciaField (p : SheetParams) (row : List Cell) : String :=
  clean_value (getCell row p.agencia_idx)

/-- The local `conta`. -/
def contaField (p : SheetParams) (row : List Cell) : String :=
  clean_value (getCell row p.conta_idx)

/-- Clean the cell of an optional column, `""` when the column is absent. -/
def readOpt (row : List Cell) (oi : Option Nat) : String :=
  match oi with
  | Option.none => ""
  | some i => clean_value (getCell row i)

/-- The local `chave_tipo`. -/
def chaveTipoField (p : SheetParams) (row : List Cell) : String :=
  readOpt row p.chave_tipo_idx

/-- The local `chave_valor`. -/
def chaveValorField (p : SheetParams) (row : List Cell) : String :=
  readOpt row p.chave_val_idx

/-- The body of the row loop (lines 122-148): skip the row when the cleaned
name is empty or its upper-cased form starts with `TOTAL`; skip it when all
seven of CPF, bank code, bank name, branch, account, key type and key value
are empty; otherwise build the record, coercing the bank code always and the
key value only when it consists solely of digits. -/
def row_to_record (p : SheetParams) (row : List Cell) : Option Record :=
  if nameField p row = "" then Option.none
  else if listStarts "TOTAL".data (pyUpper (nameField p row)).data then Option.none
  else if cpfField p row = "" ∧ bancoCodigoField p row = "" ∧
      bancoNomeField p row = "" ∧ agenciaField p row = "" ∧
      contaField p row = "" ∧ chaveTipoField p row = "" ∧
      chaveValorField p row = "" then Option.none
  else some
    { nome := nameField p row
      cpf := cpfField p row
      cod_banco := numeric_or_string (bancoCodigoField p row)
      banco := bancoNomeField p row
      agencia := agenciaField p row
      conta := contaField p row
      tipo_chave_pix := chaveTipoField p row
      chave_pix :=
        if strIsdigit (chaveValorField p row) then
          numeric_or_string (chaveValorField p row)
        else Value.s (chaveValorField p row) }

/-- `extract_rows_from_sheet` (lines 90-150): resolve the sheet, then walk
the rows below the header in order, each contributing at most one record. -/
def extract_rows_from_sheet (df : List (List Cell)) : List Record :=
  match resolve_sheet df with
  | Option.none => []
  | some (header_idx, p) => (df.drop (header_idx + 1)).filterMap (row_to_record p)

def c7df : List (List Cell) :=
  [[Cell.absent, Cell.txt "CPF", Cell.txt "BANCO", Cell.txt "AGENCIA"],
   [Cell.txt "TOTAL GERAL", Cell.txt "1", Cell.absent, Cell.absent]]

def c7p : SheetParams :=
  { name_idx := 0, cpf_idx := 1, banco_idx := 2, agencia_idx := 3,
    conta_idx := 4, chave_tipo_idx := Option.none, chave_val_idx := Option.none }

def c7row : List Cell :=
  [Cell.txt "TOTAL GERAL", Cell.txt "1", Cell.absent, Cell.absent]

def c10df : List (List Cell) :=
  [[Cell.absent, Cell.txt "CPF", Cell.txt "BANCO", Cell.txt "AGENCIA"],
   [Cell.txt "Ana", Cell.txt "999", Cell.intg 1, Cell.txt "12"]]

def c10rec : Record :=
  { nome := "Ana", cpf := "999", cod_banco := Value.i 1, banco := "12",
    agencia := "12", conta := "", tipo_chave_pix := "",
    chave_pix := Value.s "" }

/-- A cell holding a text whose characters are all whitespace.  Used only to
state claim C2's reading of a blank header, which the code does not share:
`pd.isna` is false on every string. -/
def isWhitespaceText : Cell → Bool
  | Cell.txt s => pyStrip s == ""
  | _ => false

/-- Modelled from the claim's words, for comparison with `find_name_pass1`:
pass 1 restricted to the columns left of the CPF column whose header cell is
NA *or* whitespace-only text, returning the first with a non-blank text
value in the data region. -/
def find_name_pass1_claimed (data : List (List Cell)) (header_row : List Cell)
    (cpf_idx : Nat) : Option Nat :=
  ((List.range cpf_idx).filter fun col =>
    cellIsNA (getCell header_row col) ||
      isWhitespaceText (getCell header_row col)).find? (columnHasText data)

/-- The sheet of claim C1's end-to-end scenario: the header row names NOME,
CPF, COD BANCO, BANCO, NOME BANCO, AGENCIA, CONTA, CHAVE PIX and PIX after
a blank cell, and the single data row holds Maria Silva's data, with `"NB"`
standing for the cell the claim calls ignored-by-adjacency. -/
def c1df : List (List Cell) :=
  [[Cell.absent, Cell.txt "NOME", Cell.txt "CPF", Cell.txt "COD BANCO",
    Cell.txt "BANCO", Cell.txt "NOME BANCO", Cell.txt "AGENCIA",
    Cell.txt "CONTA", Cell.txt "CHAVE PIX", Cell.txt "PIX"],
   [Cell.absent, Cell.txt "Maria Silva", Cell.txt "11122233344", Cell.intg 1,
    Cell.txt "Banco X", Cell.txt "NB", Cell.txt "0001", Cell.txt "12345",
    Cell.txt "CPF", Cell.txt "11122233344"]]


/-- `find?` after `filter` is `find?` of the conjunction. -/
theorem find?_filter_eq {α : Type} (l : List α) (p q : α → Bool) :
    (l.filter p).find? q = l.find? fun a => p a && q a := by
  induction l with
  | nil => rfl
  | cons a t ih =>
    by_cases hp : p a = true
    · rw [List.filter_cons_of_pos hp]
      by_cases hq : q a = true
      · rw [List.find?_cons_of_pos _ hq, List.find?_cons_of_pos _ (by simp [hp, hq])]
      · rw [List.find?_cons_of_neg _ hq, List.find?_cons_of_neg _ (by simp [hq]), ih]
    · rw [List.filter_cons_of_neg hp, List.find?_cons_of_neg _ (by simp [hp]), ih]

/-- An in-range `getD` is a member of the list. -/
theorem getD_mem {α : Type} (l : List α) (d : α) (n : Nat) (h : n < l.length) :
    l.getD n d ∈ l := by
  induction l generalizing n with
  | nil => simp at h
  | cons a t ih =>
    cases n with
    | zero => simp
    | succ m =>
      simp only [List.getD_cons_succ]
      exact List.mem_cons_of_mem _ (ih m (by simpa using h))

/-- Characterization of the header scan: it returns `k` plus the index of the
first row (if any) containing a text cell mentioning `CPF`. -/
theorem find_header_row_aux_eq_some (df : List (List Cell)) :
    ∀ k i : Nat, (find_header_row_aux k df = some i ↔
      ∃ j, j < df.length ∧ i = k + j ∧ rowHasCPF (df.getD j []) = true ∧
        ∀ l2, l2 < j → rowHasCPF (df.getD l2 []) = false) := by
  induction df with
  | nil => intro k i; simp [find_header_row_aux]
  | cons r t ih =>
    intro k i
    rw [find_header_row_aux]
    by_cases hr : rowHasCPF r = true
    · rw [if_pos hr]
      constructor
      · intro h
        injection h with h
        exact ⟨0, by simp, by omega, by simpa using hr,
          fun l2 hl2 => absurd hl2 (by omega)⟩
      · rintro ⟨j, hj, hi, hcpf, hmin⟩
        cases j with
        | zero => simp [hi]
        | succ j2 =>
          have h0 := hmin 0 (Nat.succ_pos _)
          rw [List.getD_cons_zero] at h0
          exact absurd hr (by simp [h0])
    · rw [if_neg hr]
      have hrf : rowHasCPF r = false := by simpa using hr
      rw [ih (k + 1) i]
      constructor
      · rintro ⟨j, hj, hi, hcpf, hmin⟩
        refine ⟨j + 1, by simp only [List.length_cons]; omega, by omega,
          by simpa using hcpf, ?_⟩
        intro l2 hl2
        cases l2 with
        | zero => simpa using hrf
        | succ m =>
          simp only [List.getD_cons_succ]
          exact hmin m (by omega)
      · rintro ⟨j, hj, hi, hcpf, hmin⟩
        cases j with
        | zero =>
          rw [List.getD_cons_zero] at hcpf
          exact absurd hcpf (by simp [hrf])
        | succ m =>
          refine ⟨m, by simp only [List.length_cons] at hj; omega, by omega,
            by simpa using hcpf, ?_⟩
          intro l2 hl2
          have hl3 := hmin (l2 + 1) (by omega)
          simpa using hl3

/-- Claim C4: `find_header_row` returns the smallest index of a row
containing a text cell whose upper-cased content includes the substring
`"CPF"`, and a sheet with no such cell anywhere yields no records. -/
theorem c4_header_locator (df : List (List Cell)) :
    (∀ i, find_header_row df = some i ↔
      (i < df.length ∧ rowHasCPF (df.getD i []) = true ∧
        ∀ j, j < i → rowHasCPF (df.getD j []) = false)) ∧
    ((∀ row ∈ df, ∀ c ∈ row, cellHasCPF c = false) →
      extract_rows_from_sheet df = []) := by
  have hch : ∀ i, find_header_row df = some i ↔
      (i < df.length ∧ rowHasCPF (df.getD i []) = true ∧
        ∀ j, j < i → rowHasCPF (df.getD j []) = false) := by
    intro i
    rw [find_header_row, find_header_row_aux_eq_some]
    constructor
    · rintro ⟨j, hj, hi, h1, h2⟩
      have hij : i = j := by omega
      subst hij
      exact ⟨hj, h1, h2⟩
    · rintro ⟨h1, h2, h3⟩
      exact ⟨i, h1, by omega, h2, h3⟩
  refine ⟨hch, ?_⟩
  intro h
  have hnone : find_header_row df = Option.none := by
    cases hf : find_header_row df with
    | none => rfl
    | some i =>
      obtain ⟨hlen, hcpf, _⟩ := (hch i).mp hf
      have hmem : df.getD i [] ∈ df := getD_mem df [] i hlen
      have hfalse : rowHasCPF (df.getD i []) = false :=
        List.any_eq_false.mpr fun x hx => by simp [h (df.getD i []) hmem x hx]
      rw [hfalse] at hcpf
      exact absurd hcpf (by decide)
  simp only [extract_rows_from_sheet, resolve_sheet, hnone]

theorem c4_witness : extract_rows_from_sheet [[Cell.txt "abc"]] = [] :=
  (c4_header_locator [[Cell.txt "abc"]]).2 (by decide)

/-- Claim C3: when the header row is found but no header cell's stripped,
upper-cased text equals exactly `BANCO`, or none equals exactly `AGENCIA`,
the sheet yields no records. -/
theorem c3_missing_required_labels (df : List (List Cell)) (hi : Nat)
    (hhdr : find_header_row df = some hi)
    (hmiss : (∀ c ∈ df.getD hi [], headerLabel c ≠ some "BANCO") ∨
      (∀ c ∈ df.getD hi [], headerLabel c ≠ some "AGENCIA")) :
    extract_rows_from_sheet df = [] := by
  have hnone : ∀ target : String,
      (∀ c ∈ df.getD hi [], headerLabel c ≠ some target) →
      findLabelIdx (df.getD hi []) target = Option.none := by
    intro target htgt
    rw [findLabelIdx, List.find?_eq_none]
    intro i hir
    rw [List.mem_range] at hir
    have hmem : getCell (df.getD hi []) i ∈ df.getD hi [] := getD_mem _ _ i hir
    simpa using htgt _ hmem
  rcases hmiss with hb | ha
  · have hb2 := hnone "BANCO" hb
    cases hcpf : findLabelIdx (df.getD hi []) "CPF" with
    | none => simp only [extract_rows_from_sheet, resolve_sheet, hhdr, hcpf]
    | some v => simp only [extract_rows_from_sheet, resolve_sheet, hhdr, hcpf, hb2]
  · have ha2 := hnone "AGENCIA" ha
    cases hcpf : findLabelIdx (df.getD hi []) "CPF" with
    | none => simp only [extract_rows_from_sheet, resolve_sheet, hhdr, hcpf]
    | some v =>
      cases hban : findLabelIdx (df.getD hi []) "BANCO" with
      | none => simp only [extract_rows_from_sheet, resolve_sheet, hhdr, hcpf, hban]
      | some w =>
        simp only [extract_rows_from_sheet, resolve_sheet, hhdr, hcpf, hban, ha2]

theorem c3_witness : extract_rows_from_sheet [[Cell.txt "CPF"]] = [] :=
  c3_missing_required_labels [[Cell.txt "CPF"]] 0 (by decide) (Or.inl (by decide))

/-- Accumulator form of the digit-string fold, related to `Nat.ofDigits`. -/
theorem pyDigitsToNat_aux (cs : List Char) (a : Nat) :
    cs.foldl (fun acc c => 10 * acc + (c.toNat - 48)) a =
      a * 10 ^ cs.length + Nat.ofDigits 10 ((cs.map fun c => c.toNat - 48).reverse) := by
  induction cs generalizing a with
  | nil => simp [Nat.ofDigits]
  | cons c t ih =>
    simp only [List.foldl_cons, List.map_cons, List.reverse_cons, List.length_cons]
    rw [ih, Nat.ofDigits_append]
    simp only [Nat.ofDigits, List.length_reverse, List.length_map, Nat.cast_id]
    ring

/-- The digit-string value used by `numeric_or_string` is the base-10 value
of the digit sequence. -/
theorem pyDigitsToNat_eq (cs : List Char) :
    pyDigitsToNat cs = Nat.ofDigits 10 ((cs.map fun c => c.toNat - 48).reverse) := by
  rw [pyDigitsToNat, pyDigitsToNat_aux]
  simp

/-- A non-empty string has a non-empty character list. -/
theorem data_ne_nil {s : String} (hs : s ≠ "") : s.data ≠ [] := by
  intro h
  apply hs
  cases s with
  | mk data =>
    simp only at h
    rw [h]

/-- Claim C5: numeric coercion maps `""` to `""`, an all-digit string to the
integer its digits denote, and any string with a non-digit character to
itself; in particular `"045"` becomes the integer `45` (leading zero not
preserved) and `"45A"` stays the text `"45A"`. -/
theorem c5_numeric_coercion :
    numeric_or_string "" = Value.s "" ∧
    (∀ s : String, s ≠ "" → (∀ c ∈ s.data, pyIsDigit c = true) →
      numeric_or_string s =
        Value.i ((Nat.ofDigits 10 ((s.data.map fun c => c.toNat - 48).reverse) : Nat) : Int)) ∧
    (∀ s : String, (∃ c ∈ s.data, pyIsDigit c = false) →
      numeric_or_string s = Value.s s) ∧
    numeric_or_string "045" = Value.i 45 ∧
    numeric_or_string "45A" = Value.s "45A" := by
  refine ⟨by decide, ?_, ?_, by decide, by decide⟩
  · intro s hs hall
    have hfilter : s.data.filter pyIsDigit = s.data := List.filter_eq_self.mpr hall
    have hne : s.data ≠ [] := data_ne_nil hs
    rw [numeric_or_string, if_neg hs, hfilter]
    rw [if_pos ⟨by simp [List.isEmpty_eq_true, hne], rfl⟩, pyDigitsToNat_eq]
  · intro s hx
    obtain ⟨c, hc, hcd⟩ := hx
    have hs : s ≠ "" := by
      intro h
      subst h
      simp at hc
    rw [numeric_or_string, if_neg hs]
    have hlt : (s.data.filter pyIsDigit).length ≠ s.data.length := by
      intro hlen
      have heq : s.data.filter pyIsDigit = s.data :=
        (List.filter_sublist s.data).eq_of_length hlen
      have hdig := List.filter_eq_self.mp heq c hc
      simp [hcd] at hdig
    rw [if_neg fun hcond => hlt hcond.2]

theorem c5_witness :
    numeric_or_string "7" =
      Value.i ((Nat.ofDigits 10 (("7".data.map fun c => c.toNat - 48).reverse) : Nat) : Int) :=
  c5_numeric_coercion.2.1 "7" (by decide) (by decide)

/-- Claim C6: the cell normalizer is a total function on the closed cell
classification — every cell has a defined text result, no error — and in
particular a float of exact integer value `1200` renders as `"1200"` (no
trailing `.0`), the float `1234.5` (exactly `2469/2`) renders as
`"1234.5"`, and an absent cell renders as `""`. -/
theorem c6_clean_value_total :
    (∀ c : Cell, ∃ s : String, clean_value c = s) ∧
    clean_value (Cell.num 1200 1) = "1200" ∧
    clean_value (Cell.num 2469 2) = "1234.5" ∧
    clean_value Cell.absent = "" :=
  ⟨fun c => ⟨clean_value c, rfl⟩, by decide, by decide, by decide⟩

/-- Inversion of a successful row extraction: the record's fields are the
cleaned row fields, the name is non-empty and not a `TOTAL` marker, and the
seven payment fields are not all empty. -/
theorem row_to_record_eq_some {p : SheetParams} {row : List Cell} {rec : Record}
    (h : row_to_record p row = some rec) :
    rec.nome = nameField p row ∧ rec.cpf = cpfField p row ∧
    rec.cod_banco = numeric_or_string (bancoCodigoField p row) ∧
    rec.banco = bancoNomeField p row ∧ rec.agencia = agenciaField p row ∧
    rec.conta = contaField p row ∧ rec.tipo_chave_pix = chaveTipoField p row ∧
    (rec.chave_pix = if strIsdigit (chaveValorField p row) then
      numeric_or_string (chaveValorField p row)
    else Value.s (chaveValorField p row)) ∧
    nameField p row ≠ "" ∧
    listStarts "TOTAL".data (pyUpper (nameField p row)).data = false ∧
    ¬(cpfField p row = "" ∧ bancoCodigoField p row = "" ∧
      bancoNomeField p row = "" ∧ agenciaField p row = "" ∧
      contaField p row = "" ∧ chaveTipoField p row = "" ∧
      chaveValorField p row = "") := by
  unfold row_to_record at h
  split at h
  · exact absurd h (by simp)
  · split at h
    · exact absurd h (by simp)
    · split at h
      · exact absurd h (by simp)
      · next hname hnt hne =>
        injection h with h
        subst h
        refine ⟨rfl, rfl, rfl, rfl, rfl, rfl, rfl, rfl, hname, ?_, hne⟩
        simpa using hnt

/-- Claim C7: once a sheet resolves, every data row whose cleaned name
upper-cases to something starting with `TOTAL` yields no record, whatever
its other cells hold; the extraction is exactly the per-row map over the
rows below the header. -/
theorem c7_total_rows_skipped (df : List (List Cell)) (hi : Nat)
    (p : SheetParams) (hres : resolve_sheet df = some (hi, p))
    (row : List Cell) (_hrow : row ∈ df.drop (hi + 1))
    (hname : listStarts "TOTAL".data (pyUpper (nameField p row)).data = true) :
    row_to_record p row = Option.none ∧
    extract_rows_from_sheet df = (df.drop (hi + 1)).filterMap (row_to_record p) := by
  constructor
  · rw [row_to_record]
    by_cases h0 : nameField p row = ""
    · rw [if_pos h0]
    · rw [if_neg h0, if_pos hname]
  · simp only [extract_rows_from_sheet, hres]

theorem c7_witness :
    row_to_record c7p c7row = Option.none ∧
    extract_rows_from_sheet c7df = (c7df.drop 1).filterMap (row_to_record c7p) :=
  c7_total_rows_skipped c7df 0 c7p (by decide) c7row (by decide) (by decide)

/-- Claim C8: a data row whose cleaned name is non-empty and not a `TOTAL`
marker but whose seven other cleaned fields are all empty yields no record
(the name is not among the seven checked fields). -/
theorem c8_name_only_row_skipped (p : SheetParams) (row : List Cell)
    (hname : nameField p row ≠ "")
    (hnt : listStarts "TOTAL".data (pyUpper (nameField p row)).data = false)
    (h1 : cpfField p row = "") (h2 : bancoCodigoField p row = "")
    (h3 : bancoNomeField p row = "") (h4 : agenciaField p row = "")
    (h5 : contaField p row = "") (h6 : chaveTipoField p row = "")
    (h7 : chaveValorField p row = "") :
    row_to_record p row = Option.none := by
  rw [row_to_record, if_neg hname, if_neg (by simp [hnt]),
    if_pos ⟨h1, h2, h3, h4, h5, h6, h7⟩]

theorem c8_witness :
    row_to_record
      { name_idx := 0, cpf_idx := 1, banco_idx := 2, agencia_idx := 3,
        conta_idx := 4, chave_tipo_idx := Option.none,
        chave_val_idx := Option.none }
      [Cell.txt "Bob"] = Option.none :=
  c8_name_only_row_skipped _ _ (by decide) (by decide) (by decide) (by decide)
    (by decide) (by decide) (by decide) (by decide) (by decide)

/-- Claim C9: reading any cell past a row's effective width yields empty
text, and in particular a record built from a row too short to reach the
bank-name column (bank-code column plus one) or the defaulted account
column carries empty text in that field; row extraction is total. -/
theorem c9_out_of_width :
    (∀ (row : List Cell) (c : Nat), row.length ≤ c →
      getCell row c = Cell.absent ∧ clean_value (getCell row c) = "") ∧
    (∀ (p : SheetParams) (row : List Cell) (rec : Record),
      row_to_record p row = some rec →
      (row.length ≤ p.banco_idx + 1 → rec.banco = "") ∧
      (row.length ≤ p.conta_idx → rec.conta = "")) := by
  have hoob : ∀ (row : List Cell) (c : Nat), row.length ≤ c →
      getCell row c = Cell.absent ∧ clean_value (getCell row c) = "" := by
    intro row c h
    have hg : getCell row c = Cell.absent :=
      List.getD_eq_default row Cell.absent h
    exact ⟨hg, by rw [hg]; rfl⟩
  refine ⟨hoob, ?_⟩
  intro p row rec h
  obtain ⟨_, _, _, hban, _, hcon, _⟩ := row_to_record_eq_some h
  constructor
  · intro hlen
    rw [hban, bancoNomeField]
    exact (hoob row _ hlen).2
  · intro hlen
    rw [hcon, contaField]
    exact (hoob row _ hlen).2

theorem c9_witness :
    (getCell [Cell.txt "x"] 5 = Cell.absent ∧
      clean_value (getCell [Cell.txt "x"] 5) = "") ∧
    ({ nome := "Bob", cpf := "123", cod_banco := Value.s "", banco := "",
       agencia := "", conta := "", tipo_chave_pix := "",
       chave_pix := Value.s "" } : Record).banco = "" := by
  refine ⟨c9_out_of_width.1 [Cell.txt "x"] 5 (by decide), ?_⟩
  exact (c9_out_of_width.2
    { name_idx := 0, cpf_idx := 1, banco_idx := 2, agencia_idx := 3,
      conta_idx := 4, chave_tipo_idx := Option.none, chave_val_idx := Option.none }
    [Cell.txt "Bob", Cell.txt "123"] _ (by decide)).1 (by decide)

/-- A coerced value is the empty string only when its input was empty. -/
theorem numeric_or_string_eq_s_empty {s : String}
    (h : numeric_or_string s = Value.s "") : s = "" := by
  by_cases hs : s = ""
  · exact hs
  · exfalso
    rw [numeric_or_string, if_neg hs] at h
    split at h
    · exact absurd h (by simp)
    · exact hs (Value.s.inj h)

/-- Claim C10: every extracted record has a non-empty name that does not
upper-case to a `TOTAL` marker, and at least one of its seven payment
fields is non-empty. -/
theorem c10_record_invariants (df : List (List Cell)) (rec : Record)
    (h : rec ∈ extract_rows_from_sheet df) :
    rec.nome ≠ "" ∧
    listStarts "TOTAL".data (pyUpper rec.nome).data = false ∧
    (rec.cpf ≠ "" ∨ rec.cod_banco ≠ Value.s "" ∨ rec.banco ≠ "" ∨
      rec.agencia ≠ "" ∨ rec.conta ≠ "" ∨ rec.tipo_chave_pix ≠ "" ∨
      rec.chave_pix ≠ Value.s "") := by
  rw [extract_rows_from_sheet] at h
  cases hres : resolve_sheet df with
  | none =>
    rw [hres] at h
    simp at h
  | some hp =>
    rw [hres] at h
    obtain ⟨row, hrow, hsome⟩ := List.mem_filterMap.mp h
    obtain ⟨hn, hcpf, hcod, hban, hag, hcon, htip, hcha, hne, hnt, hne7⟩ :=
      row_to_record_eq_some hsome
    refine ⟨by rw [hn]; exact hne, by rw [hn]; exact hnt, ?_⟩
    by_contra hall
    push_neg at hall
    obtain ⟨e1, e2, e3, e4, e5, e6, e7⟩ := hall
    apply hne7
    refine ⟨by rw [← hcpf]; exact e1, ?_, by rw [← hban]; exact e3,
      by rw [← hag]; exact e4, by rw [← hcon]; exact e5,
      by rw [← htip]; exact e6, ?_⟩
    · exact numeric_or_string_eq_s_empty (by rw [← hcod]; exact e2)
    · rw [e7] at hcha
      by_cases hd : strIsdigit (chaveValorField hp.2 row) = true
      · rw [if_pos hd] at hcha
        exact numeric_or_string_eq_s_empty hcha.symm
      · rw [if_neg hd] at hcha
        exact Value.s.inj hcha.symm

theorem c10_witness :
    c10rec.nome ≠ "" ∧
    listStarts "TOTAL".data (pyUpper c10rec.nome).data = false ∧
    (c10rec.cpf ≠ "" ∨ c10rec.cod_banco ≠ Value.s "" ∨ c10rec.banco ≠ "" ∨
      c10rec.agencia ≠ "" ∨ c10rec.conta ≠ "" ∨ c10rec.tipo_chave_pix ≠ "" ∨
      c10rec.chave_pix ≠ Value.s "") :=
  c10_record_invariants c10df c10rec (by decide)

/-- Claim C2 counterexample: in a sheet whose header row is
`[" ", absent, "CPF"]` (whitespace text, blank, CPF) with one data row of
text values, the code's pass 1 skips the whitespace-text header column and
returns column 1, while the claim's reading (whitespace-only text counts as
blank) would return column 0; so the claim, as stated, is false. -/
theorem c2_counterexample :
    find_header_row [[Cell.txt " ", Cell.absent, Cell.txt "CPF"],
      [Cell.txt "Alice", Cell.txt "Bob", Cell.txt "123"]] = some 0 ∧
    findLabelIdx [Cell.txt " ", Cell.absent, Cell.txt "CPF"] "CPF" = some 2 ∧
    find_name_pass1 [[Cell.txt "Alice", Cell.txt "Bob", Cell.txt "123"]]
      [Cell.txt " ", Cell.absent, Cell.txt "CPF"] 2 = some 1 ∧
    find_name_pass1_claimed [[Cell.txt "Alice", Cell.txt "Bob", Cell.txt "123"]]
      [Cell.txt " ", Cell.absent, Cell.txt "CPF"] 2 = some 0 ∧
    find_name_pass1 [[Cell.txt "Alice", Cell.txt "Bob", Cell.txt "123"]]
        [Cell.txt " ", Cell.absent, Cell.txt "CPF"] 2 ≠
      find_name_pass1_claimed [[Cell.txt "Alice", Cell.txt "Bob", Cell.txt "123"]]
        [Cell.txt " ", Cell.absent, Cell.txt "CPF"] 2 := by
  decide

/-- Claim C2 (amended): pass 1 of name-column inference considers exactly
the columns strictly left of the CPF column whose header cell is NA
(absent, NaN or another missing marker — a whitespace-only text header does
not count), and among these returns the first, in ascending column order,
containing a non-blank text value in some row of the data region. -/
theorem c2_pass1_blank_header (data : List (List Cell))
    (header_row : List Cell) (cpf_idx : Nat) :
    find_name_pass1 data header_row cpf_idx =
      (List.range cpf_idx).find? fun col =>
        cellIsNA (getCell header_row col) && columnHasText data col := by
  rw [find_name_pass1]
  exact find?_filter_eq _ _ _

/-- Claim C1 counterexample: on the scenario sheet the extraction does not
return the record the claim specifies — the `BANCO`-labelled column (here
holding `"Banco X"`) feeds the COD BANCO field, not the column labelled
`COD BANCO`, so COD BANCO is the text `"Banco X"` rather than the integer
`1`, and BANCO is the cell right of the `BANCO` column. -/
theorem c1_counterexample :
    extract_rows_from_sheet c1df ≠
      [{ nome := "Maria Silva", cpf := "11122233344", cod_banco := Value.i 1,
         banco := "Banco X", agencia := "0001", conta := "12345",
         tipo_chave_pix := "CPF", chave_pix := Value.i 11122233344 }] := by
  decide

/-- Claim C1 (amended): the scenario sheet yields exactly one record with
NOME `"Maria Silva"`, CPF `"11122233344"`, COD BANCO the text `"Banco X"`
(the value under the header labelled exactly `BANCO`), BANCO the value one
column right of that header (here the NOME BANCO column's cell `"NB"`),
AGENCIA `"0001"`, CONTA `"12345"`, TIPO CHAVE PIX `"CPF"` and CHAVE PIX the
integer `11122233344`. -/
theorem c1_scenario :
    extract_rows_from_sheet c1df =
      [{ nome := "Maria Silva", cpf := "11122233344",
         cod_banco := Value.s "Banco X", banco := "NB", agencia := "0001",
         conta := "12345", tipo_chave_pix := "CPF",
         chave_pix := Value.i 11122233344 }] := by
  decide

